import Mathlib

/-!
# Verification of the PSUR compliance orchestrator core

Shallow embedding of the core of the `psur_orchestrator` package:
the adjudication engine (`core/adjudication.py`), the trace generator
(`core/trace.py`), the template qualification engine
(`core/qualification.py`), and the period-contiguity checker
(`rules/engine.py`), over the data model of `core/types.py`.

Modelling conventions:
* Python `datetime`/`date` timestamp fields that no theorem touches
  (`created_at`, `adjudicated_at`, `submitted_at`, `compiled_at`) are
  omitted from the embedded records; calendar dates used arithmetically
  (`PSURPeriod.start_date` / `end_date`) are embedded as `Int` day numbers,
  so "+ 1 day" is `+ 1`.
* The freshly generated `uuid` string for `adjudication_id` is passed to
  `adjudicate` as an explicit argument.
* Python `dict`s built by comprehension (`{o.id: o for o in ...}`) keep the
  last binding for a duplicated key; they are embedded as `find?` over the
  reversed underlying list.  The evidence store `dict[str, EvidenceAtom]`
  is embedded as an association list queried with `List.lookup`.
* A proposal's `payload` is an untyped `dict` in Python; the code reads
  exactly three keys (`text`, `rows` with `cells`, `pairs`), each with a
  default for a missing key, and renders cell and pair values with `str`.
  The embedding types the payload with those three fields (defaults for
  the missing-key cases) and stores cell/pair values as their rendered
  strings.
* Python `raise` in `generate_trace` is embedded as `Except.error`.
* Python `str.split` / `str.strip` are embedded as structurally recursive
  functions over the character list (`split_double_newline`, `py_strip`),
  because the library `String.splitOn` / `String.trim` are defined by
  well-founded recursion and do not evaluate inside the kernel.
* f-string messages are embedded as string concatenations; Python's
  rendering of a list/set inside a message (brackets, quotes, and the
  arbitrary iteration order of a `set`) is canonicalised to the
  comma-separated order of first occurrence in the underlying list.
-/

/-! ## Enumerations (`core/types.py`) -/

inductive Jurisdiction where
  | EU | UK | FDA | HEALTH_CANADA | TGA
deriving DecidableEq, Repr

inductive Severity where
  | BLOCK | WARN
deriving DecidableEq, Repr

inductive SlotType where
  | NARRATIVE | TABLE | KV
deriving DecidableEq, Repr

inductive OutputType where
  | NARRATIVE | TABLE | TABLE_REF | KV
deriving DecidableEq, Repr

inductive EvidenceType where
  | SALES_VOLUME | POPULATION_ESTIMATE | COMPLAINT_RECORD | NON_SERIOUS_INCIDENT
  | SERIOUS_INCIDENT | FSCA | TREND_REPORT | LITERATURE_REVIEW
  | EXTERNAL_DATABASE_SCAN | PMCF_SUMMARY | CAPA_SUMMARY | BENEFIT_RISK_ANALYSIS
  | SIMILAR_DEVICE_INFO | STATISTICAL_ANALYSIS
deriving DecidableEq, Repr

inductive Transformation where
  | SUMMARIZE | CITE | CROSS_REFERENCE | AGGREGATE | TABULATE | QUOTE
  | INFER | INVENT | RE_WEIGHT_RISK | EXTRAPOLATE
deriving DecidableEq, Repr

inductive AdjudicationStatus where
  | ACCEPTED | REJECTED
deriving DecidableEq, Repr

inductive QualificationStatus where
  | PASS | FAIL
deriving DecidableEq, Repr

/-- The `.value` string of an `EvidenceType` member. -/
def evidence_type_value : EvidenceType → String
  | .SALES_VOLUME => "sales_volume"
  | .POPULATION_ESTIMATE => "population_estimate"
  | .COMPLAINT_RECORD => "complaint_record"
  | .NON_SERIOUS_INCIDENT => "non_serious_incident"
  | .SERIOUS_INCIDENT => "serious_incident"
  | .FSCA => "fsca"
  | .TREND_REPORT => "trend_report"
  | .LITERATURE_REVIEW => "literature_review"
  | .EXTERNAL_DATABASE_SCAN => "external_database_scan"
  | .PMCF_SUMMARY => "pmcf_summary"
  | .CAPA_SUMMARY => "capa_summary"
  | .BENEFIT_RISK_ANALYSIS => "benefit_risk_analysis"
  | .SIMILAR_DEVICE_INFO => "similar_device_info"
  | .STATISTICAL_ANALYSIS => "statistical_analysis"

/-- The `.value` string of a `Transformation` member. -/
def transformation_value : Transformation → String
  | .SUMMARIZE => "summarize"
  | .CITE => "cite"
  | .CROSS_REFERENCE => "cross_reference"
  | .AGGREGATE => "aggregate"
  | .TABULATE => "tabulate"
  | .QUOTE => "quote"
  | .INFER => "infer"
  | .INVENT => "invent"
  | .RE_WEIGHT_RISK => "re_weight_risk"
  | .EXTRAPOLATE => "extrapolate"

/-! ## Data model (`core/types.py`) -/

/-- `Obligation` (types.py:86).  `sources` holds regulatory-source id
strings; `required_time_scope` is `str | None`. -/
structure Obligation where
  id : String
  title : String
  jurisdiction : Jurisdiction
  mandatory : Bool := true
  required_evidence_types : List EvidenceType := []
  allowed_transformations : List Transformation := []
  forbidden_transformations : List Transformation := []
  required_time_scope : Option String := none
  allowed_output_types : List OutputType := []
  sources : List String := []
  allow_absence_statement : Bool := false
deriving DecidableEq, Repr

/-- `Constraint` (types.py:101). -/
structure Constraint where
  id : String
  severity : Severity
  trigger : String
  condition : String
  action : String
  sources : List String := []
  jurisdiction : Option Jurisdiction := none
deriving DecidableEq, Repr

/-- `CompiledObligations` (types.py:112); the `compiled_at` timestamp and
the `RegulatorySource` metadata list are omitted (no theorem reads them). -/
structure CompiledObligations where
  version : String := "1.0"
  obligations : List Obligation := []
deriving DecidableEq, Repr

/-- `CompiledRules` (types.py:126); `compiled_at` omitted. -/
structure CompiledRules where
  version : String := "1.0"
  constraints : List Constraint := []
deriving DecidableEq, Repr

/-- `Slot` (types.py:136); the opaque `constraints` dict is omitted
(nothing in the embedded core reads it). -/
structure Slot where
  slot_id : String
  path : String
  slot_type : SlotType
  required : Bool := false
deriving DecidableEq, Repr

/-- `TemplateSchema` (types.py:145). -/
structure TemplateSchema where
  template_id : String
  name : String
  version : String := "1.0"
  slots : List Slot := []
deriving DecidableEq, Repr

/-- `TemplateSchema.get_slot` (types.py:152): first slot with the id. -/
def TemplateSchema.get_slot (t : TemplateSchema) (slot_id : String) : Option Slot :=
  t.slots.find? (fun s => s.slot_id == slot_id)

/-- `SlotMapping` (types.py:159); the opaque `render_rules` dict is omitted. -/
structure SlotMapping where
  obligation_id : String
  slot_ids : List String
deriving DecidableEq, Repr

/-- `ObligationMapping` (types.py:166). -/
structure ObligationMapping where
  mapping_id : String
  template_id : String
  mappings : List SlotMapping := []
deriving DecidableEq, Repr

/-- `ObligationMapping.get_obligations_for_slot` (types.py:178). -/
def ObligationMapping.get_obligations_for_slot
    (m : ObligationMapping) (slot_id : String) : List String :=
  (m.mappings.filter (fun sm => decide (slot_id ∈ sm.slot_ids))).map (·.obligation_id)

/-- `EvidenceAtom` (types.py:182); content, provenance and period fields are
omitted (the adjudication checks embedded here read only `evidence_type`). -/
structure EvidenceAtom where
  atom_id : String
  evidence_type : EvidenceType
deriving DecidableEq, Repr

/-- One rendered table cell: `str(cell.get("value", ""))` for a map-shaped
cell, `str(cell)` otherwise (trace.py:87). -/
structure TableRow where
  cells : List String := []
deriving DecidableEq, Repr

/-- The typed shape of a proposal `payload` dict: the three keys the core
reads, each defaulting as in `payload.get(key, default)`.  KV pairs are
kept in insertion/list order with rendered key and value strings. -/
structure Payload where
  text : String := ""
  rows : List TableRow := []
  pairs : List (String × String) := []
deriving DecidableEq, Repr

/-- `SlotProposal` (types.py:208); `submitted_at` omitted. -/
structure SlotProposal where
  proposal_id : String
  agent_id : String
  slot_id : String
  payload : Payload
  evidence_atoms : List String := []
  claimed_basis : List String := []
  transformations_used : List Transformation := []
deriving DecidableEq, Repr

/-- `CheckResult` (types.py:220). -/
structure CheckResult where
  check_id : String
  check_type : String
  passed : Bool
  message : String
  obligation_id : Option String := none
  constraint_id : Option String := none
deriving DecidableEq, Repr

/-- `RejectionReason` (types.py:230).  The pydantic model declares no
`constraint_id` field; the extra keyword passed at adjudication.py:108 is
silently dropped by pydantic and so does not appear here either. -/
structure RejectionReason where
  rule_id : String
  rule_type : String
  obligation_id : Option String := none
  message : String
deriving DecidableEq, Repr

/-- `AdjudicationResult` (types.py:238); `adjudicated_at` omitted. -/
structure AdjudicationResult where
  adjudication_id : String
  proposal_id : String
  status : AdjudicationStatus
  check_results : List CheckResult := []
  rejection_reasons : List RejectionReason := []
deriving DecidableEq, Repr

/-- `TraceNode` (types.py:248); `created_at` omitted. -/
structure TraceNode where
  trace_id : String
  adjudication_id : String
  slot_id : String
  fragment_type : String
  fragment_index : Nat
  fragment_content : String
  evidence_atoms : List String := []
  transformations : List Transformation := []
  regulatory_basis : List String := []
  agent_id : String
deriving DecidableEq, Repr

/-- `PSURPeriod` (types.py:263); dates are embedded as `Int` day numbers. -/
structure PSURPeriod where
  period_id : String
  psur_ref : String
  start_date : Int
  end_date : Int
  jurisdiction : Jurisdiction
  device_class : Option String := none
deriving DecidableEq, Repr

/-- `PSURPeriod.overlaps` (types.py:272). -/
def PSURPeriod.overlaps (self other : PSURPeriod) : Bool :=
  decide (self.start_date ≤ other.end_date ∧ other.start_date ≤ self.end_date)

/-- `PSURPeriod.has_gap` (types.py:275): the current period does not start
exactly one day after the previous one ends. -/
def PSURPeriod.has_gap (self previous : PSURPeriod) : Bool :=
  decide (self.start_date ≠ previous.end_date + 1)

/-- `QualificationIssue` (types.py:281). -/
structure QualificationIssue where
  issue_type : String
  obligation_id : Option String := none
  slot_id : Option String := none
  message : String
deriving DecidableEq, Repr

/-- `QualificationReport` (types.py:289). -/
structure QualificationReport where
  status : QualificationStatus
  template_id : String
  missing_mandatory_obligations : List String := []
  dangling_mappings : List String := []
  incompatible_slot_types : List QualificationIssue := []
  issues : List QualificationIssue := []
deriving DecidableEq, Repr

/-! ## Template qualification (`core/qualification.py`) -/

/-- `SLOT_OUTPUT_COMPATIBILITY` (qualification.py:15). -/
def SLOT_OUTPUT_COMPATIBILITY : SlotType → List OutputType
  | .NARRATIVE => [.NARRATIVE]
  | .TABLE => [.TABLE, .TABLE_REF]
  | .KV => [.KV]

/-- The `obligation_lookup` dict of qualification.py:40 / adjudication.py:36:
a dict comprehension keeps the last binding of a duplicated id. -/
def obligation_lookup (obligations : List Obligation) (oid : String) : Option Obligation :=
  obligations.reverse.find? (fun o => o.id == oid)

/-- The `slot_lookup` dict of qualification.py:41. -/
def slot_lookup (slots : List Slot) (sid : String) : Option Slot :=
  slots.reverse.find? (fun s => s.slot_id == sid)

/-- `any(out in compatible_outputs for out in obligation.allowed_output_types)`
(qualification.py:79). -/
def has_compatible (slot : Slot) (o : Obligation) : Bool :=
  o.allowed_output_types.any
    (fun out => decide (out ∈ SLOT_OUTPUT_COMPATIBILITY slot.slot_type))

/-- The mandatory-coverage loop of qualification.py:45 restricted to the
issue records it appends. -/
def missing_mandatory_issues
    (co : CompiledObligations) (mp : ObligationMapping) : List QualificationIssue :=
  (co.obligations.filter (·.mandatory)).filterMap (fun o =>
    if o.id ∈ mp.mappings.map (·.obligation_id) then none
    else some { issue_type := "missing_mandatory", obligation_id := some o.id,
                message := "Mandatory obligation " ++ o.id ++ " is not mapped to any slot" })

/-- The ids appended to `missing_mandatory` by the same loop. -/
def missing_mandatory_ids
    (co : CompiledObligations) (mp : ObligationMapping) : List String :=
  (co.obligations.filter (·.mandatory)).filterMap (fun o =>
    if o.id ∈ mp.mappings.map (·.obligation_id) then none else some o.id)

/-- The dangling-slot loop of qualification.py:54 restricted to the issue
records it appends. -/
def dangling_issues
    (ts : TemplateSchema) (mp : ObligationMapping) : List QualificationIssue :=
  mp.mappings.flatMap (fun sm =>
    sm.slot_ids.filterMap (fun sid =>
      if slot_lookup ts.slots sid = none then
        some { issue_type := "dangling_mapping", obligation_id := some sm.obligation_id,
               slot_id := some sid,
               message := "Slot " ++ sid ++ " referenced in mapping does not exist in template" }
      else none))

/-- The slot ids appended to `dangling_mappings` by the same loop. -/
def dangling_ids (ts : TemplateSchema) (mp : ObligationMapping) : List String :=
  mp.mappings.flatMap (fun sm =>
    sm.slot_ids.filterMap (fun sid =>
      if slot_lookup ts.slots sid = none then some sid else none))

/-- The issue produced for one referenced slot id inside the
type-compatibility loop (qualification.py:73). -/
def incompatible_slot_issue (ts : TemplateSchema) (o : Obligation)
    (sid : String) : Option QualificationIssue :=
  match slot_lookup ts.slots sid with
  | none => none
  | some slot =>
    if has_compatible slot o then none
    else some { issue_type := "incompatible_type", obligation_id := some o.id,
                slot_id := some sid,
                message := "Slot " ++ sid ++ " type is not compatible with obligation allowed outputs" }

/-- The issues produced for one mapping entry by the type-compatibility
loop (qualification.py:65): a missing obligation or an empty
allowed-output list contributes nothing. -/
def incompatible_entry (co : CompiledObligations) (ts : TemplateSchema)
    (sm : SlotMapping) : List QualificationIssue :=
  match obligation_lookup co.obligations sm.obligation_id with
  | none => []
  | some o =>
    if o.allowed_output_types = [] then []
    else sm.slot_ids.filterMap (incompatible_slot_issue ts o)

/-- The type-compatibility loop of qualification.py:65. -/
def incompatible_issues (co : CompiledObligations) (ts : TemplateSchema)
    (mp : ObligationMapping) : List QualificationIssue :=
  mp.mappings.flatMap (incompatible_entry co ts)

/-- `qualify_template` (qualification.py:22).  The three loops run in
order, each appending to the flat `issues` list; `status` is `FAIL` iff
`issues` is non-empty. -/
def qualify_template (co : CompiledObligations) (ts : TemplateSchema)
    (mp : ObligationMapping) : QualificationReport :=
  let issues := missing_mandatory_issues co mp ++ dangling_issues ts mp
      ++ incompatible_issues co ts mp
  { status := if issues = [] then .PASS else .FAIL
    template_id := ts.template_id
    missing_mandatory_obligations := missing_mandatory_ids co mp
    dangling_mappings := dangling_ids ts mp
    incompatible_slot_types := incompatible_issues co ts mp
    issues := issues }

/-! ## Adjudication engine (`core/adjudication.py`) -/

/-- The constructor state of `AdjudicationEngine` (adjudication.py:25). -/
structure AdjudicationEngine where
  obligations : CompiledObligations
  rules : CompiledRules
  template : TemplateSchema
  mapping : ObligationMapping
deriving DecidableEq, Repr

/-- `_check_evidence_types` helper: the atoms of `proposal.evidence_atoms`
that resolve in the store (adjudication.py:140). -/
def referenced_atoms (p : SlotProposal) (store : List (String × EvidenceAtom)) :
    List EvidenceAtom :=
  p.evidence_atoms.filterMap (fun aid => store.lookup aid)

/-- `missing_types = set(required) - present` (adjudication.py:147), in the
order of the `required_evidence_types` list. -/
def missing_evidence_types (p : SlotProposal) (o : Obligation)
    (store : List (String × EvidenceAtom)) : List EvidenceType :=
  o.required_evidence_types.filter
    (fun t => decide (t ∉ (referenced_atoms p store).map (·.evidence_type)))

/-- Rendering of a list of evidence types inside a message. -/
def evidence_types_rendered (ts : List EvidenceType) : String :=
  String.intercalate ", " (ts.map evidence_type_value)

/-- Rendering of a list of transformations inside a message. -/
def transformations_rendered (ts : List Transformation) : String :=
  String.intercalate ", " (ts.map transformation_value)

/-- `_check_evidence_types` (adjudication.py:124). -/
def check_evidence_types (p : SlotProposal) (o : Obligation)
    (store : List (String × EvidenceAtom)) : CheckResult :=
  if o.required_evidence_types = [] then
    { check_id := "evidence_types", check_type := "obligation", passed := true,
      message := "No evidence types required", obligation_id := some o.id }
  else
    let missing := missing_evidence_types p o store
    if missing ≠ [] ∧ o.allow_absence_statement then
      { check_id := "evidence_types", check_type := "obligation", passed := true,
        message := "Missing evidence types allowed via absence statement: "
          ++ evidence_types_rendered missing,
        obligation_id := some o.id }
    else if missing ≠ [] then
      { check_id := "evidence_types", check_type := "obligation", passed := false,
        message := "Missing required evidence types: " ++ evidence_types_rendered missing,
        obligation_id := some o.id }
    else
      { check_id := "evidence_types", check_type := "obligation", passed := true,
        message := "All required evidence types present", obligation_id := some o.id }

/-- `_check_time_scope` (adjudication.py:175): a `None` or empty token is
"no time scope required"; otherwise the check passes unconditionally. -/
def check_time_scope (_p : SlotProposal) (o : Obligation)
    (_store : List (String × EvidenceAtom)) : CheckResult :=
  if o.required_time_scope = none ∨ o.required_time_scope = some "" then
    { check_id := "time_scope", check_type := "obligation", passed := true,
      message := "No time scope required", obligation_id := some o.id }
  else
    { check_id := "time_scope", check_type := "obligation", passed := true,
      message := "Time scope validation passed", obligation_id := some o.id }

/-- `used & forbidden` (adjudication.py:209), in `transformations_used` order. -/
def forbidden_used (p : SlotProposal) (o : Obligation) : List Transformation :=
  p.transformations_used.filter (fun t => decide (t ∈ o.forbidden_transformations))

/-- `used - allowed` (adjudication.py:220), in `transformations_used` order. -/
def not_allowed_used (p : SlotProposal) (o : Obligation) : List Transformation :=
  p.transformations_used.filter (fun t => decide (t ∉ o.allowed_transformations))

/-- `_check_transformations` (adjudication.py:199). -/
def check_transformations (p : SlotProposal) (o : Obligation) : CheckResult :=
  if forbidden_used p o ≠ [] then
    { check_id := "transformations", check_type := "obligation", passed := false,
      message := "Forbidden transformations used: "
        ++ transformations_rendered (forbidden_used p o),
      obligation_id := some o.id }
  else if o.allowed_transformations ≠ [] ∧
      ¬ (∀ t ∈ p.transformations_used, t ∈ o.allowed_transformations) then
    { check_id := "transformations", check_type := "obligation", passed := false,
      message := "Transformations not in allowed list: "
        ++ transformations_rendered (not_allowed_used p o),
      obligation_id := some o.id }
  else
    { check_id := "transformations", check_type := "obligation", passed := true,
      message := "All transformations valid", obligation_id := some o.id }

/-- `_evaluate_constraint` (adjudication.py:252): every constraint passes. -/
def evaluate_constraint (c : Constraint) (_p : SlotProposal)
    (_store : List (String × EvidenceAtom)) : CheckResult :=
  { check_id := c.id, check_type := "constraint", passed := true,
    message := "Constraint passed", constraint_id := some c.id }

/-- `_evaluate_constraints` (adjudication.py:237): the constraints whose
trigger is `on_proposal_submit`, in declaration order. -/
def evaluate_constraints (rules : CompiledRules) (p : SlotProposal)
    (store : List (String × EvidenceAtom)) : List CheckResult :=
  (rules.constraints.filter (fun c => c.trigger == "on_proposal_submit")).map
    (fun c => evaluate_constraint c p store)

/-- The body of the per-obligation loop at adjudication.py:62: one step
appends the three check results and the rejection reasons of the failed
ones; an id missing from the lookup is skipped. -/
def obligation_step (p : SlotProposal) (store : List (String × EvidenceAtom))
    (lookup : String → Option Obligation)
    (acc : List CheckResult × List RejectionReason) (oid : String) :
    List CheckResult × List RejectionReason :=
  match lookup oid with
  | none => acc
  | some o =>
    let ec := check_evidence_types p o store
    let tc := check_time_scope p o store
    let xc := check_transformations p o
    (acc.1 ++ [ec, tc, xc],
     acc.2
       ++ (if ec.passed then []
           else [{ rule_id := "EVIDENCE_TYPES", rule_type := "obligation",
                   obligation_id := some oid, message := ec.message }])
       ++ (if tc.passed then []
           else [{ rule_id := "TIME_SCOPE", rule_type := "obligation",
                   obligation_id := some oid, message := tc.message }])
       ++ (if xc.passed then []
           else [{ rule_id := "TRANSFORMATIONS", rule_type := "obligation",
                   obligation_id := some oid, message := xc.message }]))

/-- The structural rejection returned when the slot does not exist
(adjudication.py:49). -/
def slot_missing_result (p : SlotProposal) (adjudication_id : String) :
    AdjudicationResult :=
  { adjudication_id := adjudication_id, proposal_id := p.proposal_id,
    status := .REJECTED, check_results := [],
    rejection_reasons :=
      [{ rule_id := "SLOT_EXISTS", rule_type := "structural",
         message := "Slot " ++ p.slot_id ++ " does not exist in template" }] }

/-- The accumulated (check_results, rejection_reasons) of the
per-obligation loop (adjudication.py:62). -/
def obligation_loop (eng : AdjudicationEngine) (p : SlotProposal)
    (store : List (String × EvidenceAtom)) :
    List CheckResult × List RejectionReason :=
  (eng.mapping.get_obligations_for_slot p.slot_id).foldl
    (obligation_step p store (obligation_lookup eng.obligations.obligations)) ([], [])

/-- The rejection reasons contributed by failed constraint results
(adjudication.py:103). -/
def constraint_rejections (results : List CheckResult) : List RejectionReason :=
  results.filterMap (fun r =>
    if r.passed then none
    else some { rule_id := r.check_id, rule_type := "constraint", message := r.message })

/-- The adjudication result when the slot exists: per-obligation checks,
then constraint evaluation, then the verdict (adjudication.py:60). -/
def adjudicate_found (eng : AdjudicationEngine) (p : SlotProposal)
    (store : List (String × EvidenceAtom)) (adjudication_id : String) :
    AdjudicationResult :=
  { adjudication_id := adjudication_id, proposal_id := p.proposal_id,
    status :=
      if (((obligation_loop eng p store).2
            ++ constraint_rejections (evaluate_constraints eng.rules p store)).filter
          (fun r => decide (r.rule_type ≠ "warning"))).isEmpty
      then .ACCEPTED else .REJECTED,
    check_results := (obligation_loop eng p store).1
      ++ evaluate_constraints eng.rules p store,
    rejection_reasons := (obligation_loop eng p store).2
      ++ constraint_rejections (evaluate_constraints eng.rules p store) }

/-- `adjudicate` (adjudication.py:38).  The fresh uuid `adjudication_id`
is an explicit argument. -/
def adjudicate (eng : AdjudicationEngine) (p : SlotProposal)
    (store : List (String × EvidenceAtom)) (adjudication_id : String) :
    AdjudicationResult :=
  match eng.template.get_slot p.slot_id with
  | none => slot_missing_result p adjudication_id
  | some _ => adjudicate_found eng p store adjudication_id

/-! ## Trace generator (`core/trace.py`) -/

/-- Python `str.split("\n\n")`: cut at each non-overlapping, left-to-right
occurrence of the two-character separator.  Written as structural recursion
over the character list so that it evaluates inside the kernel. -/
def split_double_newline : List Char → List Char → List (List Char)
  | acc, '\n' :: '\n' :: rest => acc :: split_double_newline [] rest
  | acc, c :: rest => split_double_newline (acc ++ [c]) rest
  | acc, [] => [acc]

/-- Python `str.split("\n")`. -/
def split_newline : List Char → List Char → List (List Char)
  | acc, '\n' :: rest => acc :: split_newline [] rest
  | acc, c :: rest => split_newline (acc ++ [c]) rest
  | acc, [] => [acc]

/-- Python `str.strip()`: drop whitespace from both ends. -/
def py_strip (s : String) : String :=
  String.mk (((s.data.dropWhile Char.isWhitespace).reverse.dropWhile
    Char.isWhitespace).reverse)

/-- `content.split("\n\n")` on a `String`. -/
def py_split_double_newline (content : String) : List String :=
  (split_double_newline [] content.data).map String.mk

/-- `content.split("\n")` on a `String`. -/
def py_split_newline (content : String) : List String :=
  (split_newline [] content.data).map String.mk

/-- The paragraph list of `_trace_narrative` (trace.py:51): split on the
literal two-character separator, strip each piece, drop empty pieces, and
fall back to the whole stripped text when that yields nothing but the text
is non-blank. -/
def narrative_fragments (content : String) : List String :=
  let paragraphs :=
    ((py_split_double_newline content).map py_strip).filter (fun s => decide (s ≠ ""))
  if paragraphs = [] ∧ py_strip content ≠ "" then [py_strip content] else paragraphs

/-- The node built for one narrative paragraph (trace.py:57). -/
def narrative_node (p : SlotProposal) (adj : AdjudicationResult)
    (ip : Nat × String) : TraceNode :=
  { trace_id := adj.adjudication_id ++ "-" ++ toString ip.1,
    adjudication_id := adj.adjudication_id,
    slot_id := p.slot_id,
    fragment_type := "paragraph",
    fragment_index := ip.1,
    fragment_content := ip.2,
    evidence_atoms := p.evidence_atoms,
    transformations := p.transformations_used,
    regulatory_basis := p.claimed_basis,
    agent_id := p.agent_id }

/-- `_trace_narrative` (trace.py:42). -/
def trace_narrative (p : SlotProposal) (adj : AdjudicationResult) : List TraceNode :=
  (narrative_fragments p.payload.text).enum.map (narrative_node p adj)

/-- The rendered cells of all rows in row order; the running `cell_idx` of
the nested loop at trace.py:84 is the position in this flattened list. -/
def table_cells (p : SlotProposal) : List String :=
  p.payload.rows.flatMap (·.cells)

/-- The node built for one table cell (trace.py:88). -/
def cell_node (p : SlotProposal) (adj : AdjudicationResult)
    (ip : Nat × String) : TraceNode :=
  { trace_id := adj.adjudication_id ++ "-" ++ toString ip.1,
    adjudication_id := adj.adjudication_id,
    slot_id := p.slot_id,
    fragment_type := "cell",
    fragment_index := ip.1,
    fragment_content := ip.2,
    evidence_atoms := p.evidence_atoms,
    transformations := p.transformations_used,
    regulatory_basis := p.claimed_basis,
    agent_id := p.agent_id }

/-- `_trace_table` (trace.py:74). -/
def trace_table (p : SlotProposal) (adj : AdjudicationResult) : List TraceNode :=
  (table_cells p).enum.map (cell_node p adj)

/-- The fragment content of one kv pair: `f"{key}: {value}"` (trace.py:127). -/
def kv_content (kv : String × String) : String :=
  kv.1 ++ ": " ++ kv.2

/-- The node built for one kv pair (trace.py:121). -/
def kv_node (p : SlotProposal) (adj : AdjudicationResult)
    (ip : Nat × (String × String)) : TraceNode :=
  { trace_id := adj.adjudication_id ++ "-" ++ toString ip.1,
    adjudication_id := adj.adjudication_id,
    slot_id := p.slot_id,
    fragment_type := "kv_pair",
    fragment_index := ip.1,
    fragment_content := kv_content ip.2,
    evidence_atoms := p.evidence_atoms,
    transformations := p.transformations_used,
    regulatory_basis := p.claimed_basis,
    agent_id := p.agent_id }

/-- `_trace_kv` (trace.py:106). -/
def trace_kv (p : SlotProposal) (adj : AdjudicationResult) : List TraceNode :=
  p.payload.pairs.enum.map (kv_node p adj)

/-- `TraceGenerator.generate_trace` (trace.py:17).  The `raise` on a
non-ACCEPTED adjudication is embedded as `Except.error`; the
unknown-slot-type branch is unreachable because `SlotType` is closed. -/
def generate_trace (p : SlotProposal) (adj : AdjudicationResult)
    (st : SlotType) : Except String (List TraceNode) :=
  if adj.status ≠ AdjudicationStatus.ACCEPTED then
    Except.error "Cannot generate trace for rejected proposal"
  else
    match st with
    | .NARRATIVE => Except.ok (trace_narrative p adj)
    | .TABLE => Except.ok (trace_table p adj)
    | .KV => Except.ok (trace_kv p adj)

/-- The fragments of a payload for a slot type, by the rules of
`generate_trace`; one trace node is emitted per entry. -/
def payload_fragments (p : SlotProposal) : SlotType → List String
  | .NARRATIVE => narrative_fragments p.payload.text
  | .TABLE => table_cells p
  | .KV => p.payload.pairs.map kv_content

/-- The `fragment_type` tag used for each slot type. -/
def fragment_type_name : SlotType → String
  | .NARRATIVE => "paragraph"
  | .TABLE => "cell"
  | .KV => "kv_pair"

/-- `validate_trace_completeness` (trace.py:139): an empty trace list is
invalid outright; otherwise the expected count is re-derived from the
payload and compared with `≥`. -/
def validate_trace_completeness (p : SlotProposal) (traces : List TraceNode)
    (st : SlotType) : Bool :=
  if traces.isEmpty then false
  else
    match st with
    | .NARRATIVE => decide (traces.length ≥ (narrative_fragments p.payload.text).length)
    | .TABLE => decide (traces.length ≥ (p.payload.rows.map (fun r => r.cells.length)).sum)
    | .KV => decide (traces.length ≥ p.payload.pairs.length)

/-- Modelled from the spec (trace fragmentation, §4.D as quoted by the
claim): a blank-line boundary is one or more consecutive newlines where
each intervening line is empty after trimming.  The text is cut into
lines, the lines are grouped between the blank (trim-empty) ones, each
group is rejoined and trimmed, empty fragments are discarded, and the
whole trimmed text is the single fragment when nothing remains but the
text is non-blank.  This is the claim's splitter, stated for comparison
with `narrative_fragments`, which splits on the literal separator. -/
def spec_narrative_fragments (content : String) : List String :=
  let groups := (py_split_newline content).splitOnP (fun l => py_strip l == "")
  let fragments :=
    (groups.map (fun g => py_strip (String.intercalate "\n" g))).filter
      (fun s => decide (s ≠ ""))
  if fragments = [] ∧ py_strip content ≠ "" then [py_strip content] else fragments

/-! ## Period engine (`rules/engine.py`) -/

/-- `sorted(periods, key=lambda p: p.start_date)` (engine.py:88): Python
`sorted` is a stable sort on the key. -/
def sort_periods (periods : List PSURPeriod) : List PSURPeriod :=
  periods.mergeSort (fun a b => decide (a.start_date ≤ b.start_date))

/-- The overlap messages of the doubly nested loop at engine.py:91: one
message for every ordered pair of distinct positions that overlap. -/
def overlap_issues (l : List PSURPeriod) : List String :=
  l.enum.flatMap (fun ip =>
    l.enum.filterMap (fun jq =>
      if ip.1 ≠ jq.1 ∧ ip.2.overlaps jq.2 then
        some ("Period " ++ ip.2.period_id ++ " overlaps with " ++ jq.2.period_id)
      else none))

/-- The gap messages of the loop at engine.py:98: one message for every
adjacent sorted pair with a gap. -/
def gap_issues : List PSURPeriod → List String
  | previous :: current :: rest =>
    (if current.has_gap previous then
      ["Gap between " ++ previous.period_id ++ " and " ++ current.period_id]
     else []) ++ gap_issues (current :: rest)
  | _ => []

/-- `validate_period_contiguity` (engine.py:80). -/
def validate_period_contiguity (periods : List PSURPeriod) : Bool × List String :=
  if periods = [] then (true, [])
  else
    let sorted_periods := sort_periods periods
    let issues := overlap_issues sorted_periods ++ gap_issues sorted_periods
    (issues.length = 0, issues)
/-! ## Claim-level predicates -/

/-- The transformation-rule violation condition of the spec:
`used ∩ forbidden ≠ ∅`, or `allowed ≠ ∅` and `used ⊄ allowed`
(sets read off the underlying lists). -/
def transformation_violation (p : SlotProposal) (o : Obligation) : Prop :=
  (∃ t ∈ p.transformations_used, t ∈ o.forbidden_transformations) ∨
  (o.allowed_transformations ≠ [] ∧
    ¬ ∀ t ∈ p.transformations_used, t ∈ o.allowed_transformations)

/-- The evidence-completeness violation condition of the spec:
`required \ present ≠ ∅` and no absence statement is allowed. -/
def evidence_violation (p : SlotProposal) (o : Obligation)
    (store : List (String × EvidenceAtom)) : Prop :=
  missing_evidence_types p o store ≠ [] ∧ o.allow_absence_statement = false

/-- Qualification condition 1: every mandatory obligation id occurs among
the mapping entries. -/
def mandatory_covered (co : CompiledObligations) (mp : ObligationMapping) : Prop :=
  ∀ o ∈ co.obligations, o.mandatory = true →
    o.id ∈ mp.mappings.map (·.obligation_id)

/-- Qualification condition 2: every slot id referenced by a mapping entry
exists in the template. -/
def no_dangling (ts : TemplateSchema) (mp : ObligationMapping) : Prop :=
  ∀ sm ∈ mp.mappings, ∀ sid ∈ sm.slot_ids, slot_lookup ts.slots sid ≠ none

/-- Qualification condition 3: for every mapping entry whose obligation
resolves and constrains output types, every referenced existing slot has a
compatible slot type. -/
def types_compatible (co : CompiledObligations) (ts : TemplateSchema)
    (mp : ObligationMapping) : Prop :=
  ∀ sm ∈ mp.mappings, ∀ o, obligation_lookup co.obligations sm.obligation_id = some o →
    o.allowed_output_types ≠ [] →
    ∀ sid ∈ sm.slot_ids, ∀ s, slot_lookup ts.slots sid = some s →
      has_compatible s o = true

/-- No two distinct entries of the list overlap. -/
def pairwise_no_overlap (l : List PSURPeriod) : Prop :=
  ∀ (i j : Nat) (hi : i < l.length) (hj : j < l.length), i ≠ j →
    (l.get ⟨i, hi⟩).overlaps (l.get ⟨j, hj⟩) = false

/-! ## Concrete instances used by witnesses and counterexamples -/

/-- A narrative/table/kv payload exercising every fragmentation rule. -/
def sample_payload : Payload :=
  { text := "A.\n\nB.\n\nC.", rows := [{ cells := ["x", "y"] }, { cells := ["z"] }],
    pairs := [("k", "v")] }

def sample_proposal : SlotProposal :=
  { proposal_id := "prop-1", agent_id := "agent-1", slot_id := "s1",
    payload := sample_payload, evidence_atoms := ["a1"], claimed_basis := ["ob-1"],
    transformations_used := [.SUMMARIZE] }

def accepted_adjudication : AdjudicationResult :=
  { adjudication_id := "adj-1", proposal_id := "prop-1", status := .ACCEPTED }

def rejected_adjudication : AdjudicationResult :=
  { adjudication_id := "adj-2", proposal_id := "prop-1", status := .REJECTED }

/-- A narrative payload whose only candidate boundary is a whitespace-only
line: `"a\n \nb"` contains no literal `"\n\n"`. -/
def blank_space_proposal : SlotProposal :=
  { proposal_id := "prop-2", agent_id := "agent-1", slot_id := "s1",
    payload := { text := "a\n \nb" } }

/-- A proposal whose payload is entirely empty. -/
def empty_proposal : SlotProposal :=
  { proposal_id := "prop-3", agent_id := "agent-1", slot_id := "s1", payload := {} }

/-- The first narrative trace node of `sample_proposal`. -/
def sample_node : TraceNode :=
  narrative_node sample_proposal accepted_adjudication (0, "A.")

/-! Fixtures for the adjudication witnesses. -/

def sample_slot : Slot := { slot_id := "s1", path := "sections.s1", slot_type := .NARRATIVE }

def sample_template : TemplateSchema :=
  { template_id := "t1", name := "T1", slots := [sample_slot] }

def empty_template : TemplateSchema := { template_id := "t0", name := "T0", slots := [] }

/-- An obligation that forbids the INVENT transformation. -/
def forbidding_obligation : Obligation :=
  { id := "ob-1", title := "No invention", jurisdiction := .EU,
    forbidden_transformations := [.INVENT] }

/-- An obligation that requires sales-volume evidence. -/
def requiring_obligation : Obligation :=
  { id := "ob-2", title := "Sales data", jurisdiction := .EU,
    required_evidence_types := [.SALES_VOLUME] }

def sample_mapping : ObligationMapping :=
  { mapping_id := "m1", template_id := "t1",
    mappings := [{ obligation_id := "ob-1", slot_ids := ["s1"] },
                 { obligation_id := "ob-2", slot_ids := ["s1"] }] }

def sample_engine : AdjudicationEngine :=
  { obligations := { obligations := [forbidding_obligation, requiring_obligation] },
    rules := {}, template := sample_template, mapping := sample_mapping }

def missing_slot_engine : AdjudicationEngine :=
  { obligations := {}, rules := {}, template := empty_template,
    mapping := { mapping_id := "m0", template_id := "t0" } }

/-- A proposal that uses the forbidden INVENT transformation and
references no evidence. -/
def invent_proposal : SlotProposal :=
  { proposal_id := "prop-4", agent_id := "agent-1", slot_id := "s1",
    payload := {}, transformations_used := [.INVENT] }

/-! ## C9: a rejected adjudication aborts trace generation -/


/-- C9.  `generate_trace` called on an adjudication whose status is
REJECTED raises (returns the error) for every proposal and slot type; it
never yields a trace list for a non-ACCEPTED adjudication. -/
theorem generate_trace_rejected_errors
    (p : SlotProposal) (adj : AdjudicationResult) (st : SlotType)
    (h : adj.status = AdjudicationStatus.REJECTED) :
    generate_trace p adj st =
      Except.error "Cannot generate trace for rejected proposal" := by
  simp [generate_trace, h]

/-- Witness for C9 at a concrete rejected adjudication. -/
theorem generate_trace_rejected_errors_witness :
    generate_trace sample_proposal rejected_adjudication SlotType.NARRATIVE =
      Except.error "Cannot generate trace for rejected proposal" :=
  generate_trace_rejected_errors sample_proposal rejected_adjudication
    SlotType.NARRATIVE rfl

/-! ## C7: every trace node carries the proposal's provenance -/

/-- C7.  Every node emitted by `generate_trace`, for every slot type,
carries the source proposal's full `evidence_atoms` and
`transformations_used` lists, its `claimed_basis` as `regulatory_basis`,
its `agent_id` and `slot_id`, and a `trace_id` equal to
`<adjudication_id>-<fragment_index>`. -/
theorem generate_trace_provenance
    (p : SlotProposal) (adj : AdjudicationResult) (st : SlotType)
    (nodes : List TraceNode) (h : generate_trace p adj st = Except.ok nodes) :
    ∀ n ∈ nodes,
      n.evidence_atoms = p.evidence_atoms ∧
      n.transformations = p.transformations_used ∧
      n.regulatory_basis = p.claimed_basis ∧
      n.agent_id = p.agent_id ∧
      n.slot_id = p.slot_id ∧
      n.adjudication_id = adj.adjudication_id ∧
      n.trace_id = adj.adjudication_id ++ "-" ++ toString n.fragment_index := by
  intro n hn
  by_cases hst : adj.status = AdjudicationStatus.ACCEPTED
  · cases st <;>
      simp only [generate_trace, hst, ne_eq, not_true_eq_false, if_false,
        Except.ok.injEq] at h <;>
      subst h <;>
      · simp only [trace_narrative, trace_table, trace_kv, List.mem_map] at hn
        obtain ⟨ip, _, hip⟩ := hn
        subst hip
        simp [narrative_node, cell_node, kv_node]
  · simp [generate_trace, hst] at h

/-- Witness for C7 at the first node of a concrete narrative trace. -/
theorem generate_trace_provenance_witness :
    sample_node.evidence_atoms = sample_proposal.evidence_atoms ∧
    sample_node.transformations = sample_proposal.transformations_used ∧
    sample_node.regulatory_basis = sample_proposal.claimed_basis ∧
    sample_node.agent_id = sample_proposal.agent_id ∧
    sample_node.slot_id = sample_proposal.slot_id ∧
    sample_node.adjudication_id = accepted_adjudication.adjudication_id ∧
    sample_node.trace_id =
      accepted_adjudication.adjudication_id ++ "-" ++ toString sample_node.fragment_index :=
  generate_trace_provenance sample_proposal accepted_adjudication SlotType.NARRATIVE
    (trace_narrative sample_proposal accepted_adjudication) rfl sample_node (by decide)

/-! ## C3: one trace node per payload fragment -/

/-- Counterexample to C3 as stated.  The claim derives narrative fragments
by splitting on blank-line boundaries where each intervening line is empty
after trimming; on the text `"a\n \nb"` that splitter yields the two
fragments `["a", "b"]`, but the code splits on the literal `"\n\n"`, finds
no separator, and emits a single whole-text trace node. -/
theorem generate_trace_atomicity_counterexample :
    ((generate_trace blank_space_proposal accepted_adjudication
        SlotType.NARRATIVE).toOption.map List.length) = some 1 ∧
    (spec_narrative_fragments blank_space_proposal.payload.text).length = 2 ∧
    (1 : Nat) ≠ 2 := by
  decide

/-- C3 (amended).  For an ACCEPTED adjudication, `generate_trace` emits
exactly one node per payload fragment with `fragment_index` running
`0..N-1` in fragment order, where for a narrative slot the fragments are
the non-empty trimmed pieces of splitting `payload.text` on occurrences of
the literal separator `"\n\n"` (one whole-text fragment when that yields
none but the trimmed text is non-empty), for a table slot the rendered
cells over all rows in order, and for a kv slot the pairs in order. -/
theorem generate_trace_atomicity
    (p : SlotProposal) (adj : AdjudicationResult) (st : SlotType)
    (h : adj.status = AdjudicationStatus.ACCEPTED) :
    ∃ nodes, generate_trace p adj st = Except.ok nodes ∧
      nodes.length = (payload_fragments p st).length ∧
      nodes.map (·.fragment_index) = List.range (payload_fragments p st).length ∧
      nodes.map (·.fragment_content) = payload_fragments p st ∧
      ∀ n ∈ nodes, n.fragment_type = fragment_type_name st := by
  cases st
  · refine ⟨trace_narrative p adj, by simp [generate_trace, h], ?_, ?_, ?_, ?_⟩
    · simp [trace_narrative, payload_fragments, List.enum_length]
    · simp only [trace_narrative, payload_fragments, List.map_map]
      have : ((fun n : TraceNode => n.fragment_index) ∘ narrative_node p adj) =
          Prod.fst := by
        funext ip; rfl
      rw [this, List.enum_map_fst]
    · simp only [trace_narrative, payload_fragments, List.map_map]
      have : ((fun n : TraceNode => n.fragment_content) ∘ narrative_node p adj) =
          Prod.snd := by
        funext ip; rfl
      rw [this, List.enum_map_snd]
    · intro n hn
      simp only [trace_narrative, List.mem_map] at hn
      obtain ⟨ip, _, hip⟩ := hn
      subst hip
      rfl
  · refine ⟨trace_table p adj, by simp [generate_trace, h], ?_, ?_, ?_, ?_⟩
    · simp [trace_table, payload_fragments, List.enum_length]
    · simp only [trace_table, payload_fragments, List.map_map]
      have : ((fun n : TraceNode => n.fragment_index) ∘ cell_node p adj) =
          Prod.fst := by
        funext ip; rfl
      rw [this, List.enum_map_fst]
    · simp only [trace_table, payload_fragments, List.map_map]
      have : ((fun n : TraceNode => n.fragment_content) ∘ cell_node p adj) =
          Prod.snd := by
        funext ip; rfl
      rw [this, List.enum_map_snd]
    · intro n hn
      simp only [trace_table, List.mem_map] at hn
      obtain ⟨ip, _, hip⟩ := hn
      subst hip
      rfl
  · refine ⟨trace_kv p adj, by simp [generate_trace, h], ?_, ?_, ?_, ?_⟩
    · simp [trace_kv, payload_fragments, List.enum_length]
    · simp only [trace_kv, payload_fragments, List.map_map]
      have : ((fun n : TraceNode => n.fragment_index) ∘ kv_node p adj) =
          Prod.fst := by
        funext ip; rfl
      rw [this, List.enum_map_fst]
      simp
    · simp only [trace_kv, payload_fragments, List.map_map]
      have : ((fun n : TraceNode => n.fragment_content) ∘ kv_node p adj) =
          (kv_content ∘ Prod.snd) := by
        funext ip; rfl
      rw [this, ← List.map_map, List.enum_map_snd]
    · intro n hn
      simp only [trace_kv, List.mem_map] at hn
      obtain ⟨ip, _, hip⟩ := hn
      subst hip
      rfl

/-- Witness for C3 (amended) at a concrete accepted narrative proposal. -/
theorem generate_trace_atomicity_witness :
    ∃ nodes,
      generate_trace sample_proposal accepted_adjudication SlotType.NARRATIVE =
        Except.ok nodes ∧
      nodes.length =
        (payload_fragments sample_proposal SlotType.NARRATIVE).length ∧
      nodes.map (·.fragment_index) =
        List.range (payload_fragments sample_proposal SlotType.NARRATIVE).length ∧
      nodes.map (·.fragment_content) =
        payload_fragments sample_proposal SlotType.NARRATIVE ∧
      ∀ n ∈ nodes, n.fragment_type = fragment_type_name SlotType.NARRATIVE :=
  generate_trace_atomicity sample_proposal accepted_adjudication SlotType.NARRATIVE rfl

/-! ## C8: trace completeness validation -/

/-- Counterexample to C8 as stated.  On an entirely empty narrative payload
the expected fragment count is 0, so `len(traces) ≥ expected` holds for the
empty trace list, yet `validate_trace_completeness` returns `False` because
it rejects an empty trace list outright. -/
theorem validate_trace_completeness_counterexample :
    validate_trace_completeness empty_proposal [] SlotType.NARRATIVE = false ∧
    (payload_fragments empty_proposal SlotType.NARRATIVE).length = 0 ∧
    ¬ ((validate_trace_completeness empty_proposal [] SlotType.NARRATIVE = true) ↔
        (List.length ([] : List TraceNode) ≥
          (payload_fragments empty_proposal SlotType.NARRATIVE).length)) := by
  decide

/-- C8 (amended).  For every proposal, trace list and slot type,
`validate_trace_completeness` returns `true` iff the trace list is
non-empty and its length is at least the expected fragment count
re-derived from the payload by the fragmentation rules of
`generate_trace`. -/
theorem validate_trace_completeness_iff
    (p : SlotProposal) (traces : List TraceNode) (st : SlotType) :
    validate_trace_completeness p traces st = true ↔
      (traces ≠ [] ∧ traces.length ≥ (payload_fragments p st).length) := by
  cases traces with
  | nil => simp [validate_trace_completeness]
  | cons t ts =>
    cases st <;>
      simp [validate_trace_completeness, payload_fragments, table_cells,
        List.length_flatMap, Function.comp_def]

/-! ## Adjudication loop lemmas -/

/-- One loop step only appends rejection reasons. -/
theorem obligation_step_reasons_mono
    (p : SlotProposal) (store : List (String × EvidenceAtom))
    (lk : String → Option Obligation)
    (acc : List CheckResult × List RejectionReason) (oid : String)
    (r : RejectionReason) (hr : r ∈ acc.2) :
    r ∈ (obligation_step p store lk acc oid).2 := by
  unfold obligation_step
  cases lk oid with
  | none => exact hr
  | some o => simp [hr]

/-- The whole loop only appends rejection reasons. -/
theorem foldl_step_reasons_mono
    (p : SlotProposal) (store : List (String × EvidenceAtom))
    (lk : String → Option Obligation) (ids : List String) :
    ∀ (acc : List CheckResult × List RejectionReason) (r : RejectionReason),
      r ∈ acc.2 → r ∈ (ids.foldl (obligation_step p store lk) acc).2 := by
  induction ids with
  | nil => intro acc r hr; exact hr
  | cons a t ih =>
    intro acc r hr
    exact ih (obligation_step p store lk acc a) r
      (obligation_step_reasons_mono p store lk acc a r hr)

/-- Every rejection reason the loop itself adds has rule_type
`"obligation"`. -/
theorem foldl_step_reason_types
    (p : SlotProposal) (store : List (String × EvidenceAtom))
    (lk : String → Option Obligation) (ids : List String) :
    ∀ (acc : List CheckResult × List RejectionReason),
      (∀ r ∈ acc.2, r.rule_type = "obligation") →
      ∀ r ∈ (ids.foldl (obligation_step p store lk) acc).2, r.rule_type = "obligation" := by
  induction ids with
  | nil => intro acc hacc; exact hacc
  | cons a t ih =>
    intro acc hacc
    refine ih (obligation_step p store lk acc a) ?_
    intro r hr
    unfold obligation_step at hr
    cases hlk : lk a with
    | none => rw [hlk] at hr; exact hacc r hr
    | some o =>
      rw [hlk] at hr
      simp only [List.mem_append] at hr
      rcases hr with ((h | h) | h) | h
      · exact hacc r h
      all_goals
        first
        | (split at h <;> simp_all)

/-- If a mapped, resolvable obligation fails the transformation check,
the loop records the `TRANSFORMATIONS` rejection reason for it. -/
theorem foldl_step_mem_transform
    (p : SlotProposal) (store : List (String × EvidenceAtom))
    (lk : String → Option Obligation) (ids : List String) (oid : String)
    (o : Obligation) (hmem : oid ∈ ids) (hlk : lk oid = some o)
    (hfail : (check_transformations p o).passed = false) :
    ∀ acc, ({ rule_id := "TRANSFORMATIONS", rule_type := "obligation",
              obligation_id := some oid,
              message := (check_transformations p o).message } : RejectionReason) ∈
      (ids.foldl (obligation_step p store lk) acc).2 := by
  induction ids with
  | nil => cases hmem
  | cons a t ih =>
    intro acc
    rcases List.mem_cons.mp hmem with heq | htail
    · subst heq
      refine foldl_step_reasons_mono p store lk t _ _ ?_
      unfold obligation_step
      rw [hlk]
      simp [hfail]
    · exact ih htail (obligation_step p store lk acc a)

/-- If a mapped, resolvable obligation fails the evidence-type check,
the loop records the `EVIDENCE_TYPES` rejection reason for it. -/
theorem foldl_step_mem_evidence
    (p : SlotProposal) (store : List (String × EvidenceAtom))
    (lk : String → Option Obligation) (ids : List String) (oid : String)
    (o : Obligation) (hmem : oid ∈ ids) (hlk : lk oid = some o)
    (hfail : (check_evidence_types p o store).passed = false) :
    ∀ acc, ({ rule_id := "EVIDENCE_TYPES", rule_type := "obligation",
              obligation_id := some oid,
              message := (check_evidence_types p o store).message } : RejectionReason) ∈
      (ids.foldl (obligation_step p store lk) acc).2 := by
  induction ids with
  | nil => cases hmem
  | cons a t ih =>
    intro acc
    rcases List.mem_cons.mp hmem with heq | htail
    · subst heq
      refine foldl_step_reasons_mono p store lk t _ _ ?_
      unfold obligation_step
      rw [hlk]
      simp [hfail]
    · exact ih htail (obligation_step p store lk acc a)

/-- No constraint evaluated at proposal submission ever fails
(adjudication.py:252 returns `passed=True` unconditionally). -/
theorem evaluate_constraints_all_pass
    (rules : CompiledRules) (p : SlotProposal)
    (store : List (String × EvidenceAtom)) :
    ∀ c ∈ evaluate_constraints rules p store, c.passed = true := by
  intro c hc
  simp only [evaluate_constraints, List.mem_map] at hc
  obtain ⟨k, _, hk⟩ := hc
  subst hk
  rfl

/-- The constraint pass over a proposal contributes no rejection reason. -/
theorem constraint_reasons_nil
    (rules : CompiledRules) (p : SlotProposal)
    (store : List (String × EvidenceAtom)) :
    constraint_rejections (evaluate_constraints rules p store) = [] := by
  rw [constraint_rejections, List.filterMap_eq_nil_iff]
  intro r hr
  simp [evaluate_constraints_all_pass rules p store r hr]

/-- `used ∩ forbidden` is non-empty iff some used transformation is
forbidden. -/
theorem forbidden_used_ne_nil_iff (p : SlotProposal) (o : Obligation) :
    forbidden_used p o ≠ [] ↔
      ∃ t ∈ p.transformations_used, t ∈ o.forbidden_transformations := by
  rw [Ne, forbidden_used, List.filter_eq_nil_iff]
  push_neg
  simp

/-- The transformation check fails exactly on the spec's violation
condition. -/
theorem check_transformations_passed_iff (p : SlotProposal) (o : Obligation) :
    (check_transformations p o).passed = false ↔ transformation_violation p o := by
  unfold check_transformations transformation_violation
  split_ifs with h1 h2
  · simpa using Or.inl ((forbidden_used_ne_nil_iff p o).mp h1)
  · simpa using Or.inr h2
  · have hA : ¬ ∃ t ∈ p.transformations_used, t ∈ o.forbidden_transformations :=
      fun h => h1 ((forbidden_used_ne_nil_iff p o).mpr h)
    push_neg at h2
    simp [hA]
    exact fun hne => h2 hne

/-- The evidence-type check fails exactly when some required type is
missing, the required list is non-empty, and no absence statement is
allowed. -/
theorem check_evidence_types_passed_iff (p : SlotProposal) (o : Obligation)
    (store : List (String × EvidenceAtom)) :
    (check_evidence_types p o store).passed = false ↔
      (o.required_evidence_types ≠ [] ∧ evidence_violation p o store) := by
  by_cases h1 : o.required_evidence_types = []
  · simp [check_evidence_types, evidence_violation, h1]
  · by_cases h2 : missing_evidence_types p o store = []
    · simp [check_evidence_types, evidence_violation, h1, h2]
    · by_cases h3 : o.allow_absence_statement = true
      · simp [check_evidence_types, evidence_violation, h1, h2, h3]
      · have hb : o.allow_absence_statement = false := by
          cases hb : o.allow_absence_statement
          · rfl
          · exact absurd hb h3
        simp [check_evidence_types, evidence_violation, h1, h2, hb]

/-- The message of a failed evidence-type check lists the missing types. -/
theorem check_evidence_types_failed_message (p : SlotProposal) (o : Obligation)
    (store : List (String × EvidenceAtom))
    (h : (check_evidence_types p o store).passed = false) :
    (check_evidence_types p o store).message =
      "Missing required evidence types: "
        ++ evidence_types_rendered (missing_evidence_types p o store) := by
  by_cases h1 : o.required_evidence_types = []
  · simp [check_evidence_types, h1] at h
  · by_cases h2 : missing_evidence_types p o store = []
    · simp [check_evidence_types, h1, h2] at h
    · by_cases h3 : o.allow_absence_statement = true
      · simp [check_evidence_types, h1, h2, h3] at h
      · have hb : o.allow_absence_statement = false := by
          cases hb : o.allow_absence_statement
          · rfl
          · exact absurd hb h3
        simp [check_evidence_types, h1, h2, hb]

/-- When the slot resolves, `adjudicate` proceeds to the full pipeline. -/
theorem adjudicate_eq_found (eng : AdjudicationEngine) (p : SlotProposal)
    (store : List (String × EvidenceAtom)) (adjudication_id : String)
    (slot : Slot) (hs : eng.template.get_slot p.slot_id = some slot) :
    adjudicate eng p store adjudication_id =
      adjudicate_found eng p store adjudication_id := by
  simp [adjudicate, hs]

/-- When the slot is missing, `adjudicate` returns the structural
rejection. -/
theorem adjudicate_eq_missing (eng : AdjudicationEngine) (p : SlotProposal)
    (store : List (String × EvidenceAtom)) (adjudication_id : String)
    (hs : eng.template.get_slot p.slot_id = none) :
    adjudicate eng p store adjudication_id = slot_missing_result p adjudication_id := by
  simp [adjudicate, hs]

/-- A non-warning rejection reason recorded by the obligation loop forces
the REJECTED verdict. -/
theorem adjudicate_found_rejected_of_reason
    (eng : AdjudicationEngine) (p : SlotProposal)
    (store : List (String × EvidenceAtom)) (adjudication_id : String)
    (r : RejectionReason) (hr : r ∈ (obligation_loop eng p store).2)
    (hrt : r.rule_type ≠ "warning") :
    (adjudicate_found eng p store adjudication_id).status = .REJECTED := by
  have hmemb : r ∈ (((obligation_loop eng p store).2
      ++ constraint_rejections (evaluate_constraints eng.rules p store)).filter
        (fun r => decide (r.rule_type ≠ "warning"))) :=
    List.mem_filter.mpr ⟨List.mem_append_left _ hr, by simp [hrt]⟩
  have hne : ¬ ((((obligation_loop eng p store).2
      ++ constraint_rejections (evaluate_constraints eng.rules p store)).filter
        (fun r => decide (r.rule_type ≠ "warning"))).isEmpty = true) :=
    fun hcon => (List.ne_nil_of_mem hmemb) (List.isEmpty_iff.mp hcon)
  show (if _ then AdjudicationStatus.ACCEPTED else .REJECTED) = .REJECTED
  rw [if_neg hne]

/-! ## C6: structural gate on slot existence -/

/-- C6.  A proposal for a slot that is not in the template is REJECTED
with exactly one rejection reason — rule `SLOT_EXISTS`, rule_type
`structural` — and an empty `check_results` list: no obligation or
constraint check runs. -/
theorem adjudicate_missing_slot
    (eng : AdjudicationEngine) (p : SlotProposal)
    (store : List (String × EvidenceAtom)) (adjudication_id : String)
    (hslot : eng.template.get_slot p.slot_id = none) :
    (adjudicate eng p store adjudication_id).status = .REJECTED ∧
    (adjudicate eng p store adjudication_id).rejection_reasons =
      [{ rule_id := "SLOT_EXISTS", rule_type := "structural",
         message := "Slot " ++ p.slot_id ++ " does not exist in template" }] ∧
    (adjudicate eng p store adjudication_id).check_results = [] := by
  rw [adjudicate_eq_missing eng p store adjudication_id hslot]
  exact ⟨rfl, rfl, rfl⟩

/-- Witness for C6 at an engine whose template has no slots. -/
theorem adjudicate_missing_slot_witness :
    (adjudicate missing_slot_engine sample_proposal [] "adj-5").status = .REJECTED ∧
    (adjudicate missing_slot_engine sample_proposal [] "adj-5").rejection_reasons =
      [{ rule_id := "SLOT_EXISTS", rule_type := "structural",
         message := "Slot " ++ sample_proposal.slot_id ++ " does not exist in template" }] ∧
    (adjudicate missing_slot_engine sample_proposal [] "adj-5").check_results = [] :=
  adjudicate_missing_slot missing_slot_engine sample_proposal [] "adj-5" rfl

/-! ## C10: constraint evaluation is vacuous -/

/-- C10.  Every constraint check result produced at proposal submission
has `passed = true`; consequently no rejection reason ever carries
rule_type `constraint`, and the verdict does not depend on the compiled
rules at all. -/
theorem adjudicate_constraints_vacuous
    (eng : AdjudicationEngine) (p : SlotProposal)
    (store : List (String × EvidenceAtom)) (adjudication_id : String) :
    (∀ c ∈ evaluate_constraints eng.rules p store, c.passed = true) ∧
    (∀ r ∈ (adjudicate eng p store adjudication_id).rejection_reasons,
      r.rule_type ≠ "constraint") ∧
    (∀ rules₂ : CompiledRules,
      (adjudicate eng p store adjudication_id).status =
        (adjudicate { eng with rules := rules₂ } p store adjudication_id).status) := by
  refine ⟨evaluate_constraints_all_pass eng.rules p store, ?_, ?_⟩
  · intro r hr
    cases hs : eng.template.get_slot p.slot_id with
    | none =>
      rw [adjudicate_eq_missing eng p store adjudication_id hs] at hr
      simp only [slot_missing_result, List.mem_singleton] at hr
      subst hr
      simp
    | some slot =>
      rw [adjudicate_eq_found eng p store adjudication_id slot hs] at hr
      have hr' : r ∈ (obligation_loop eng p store).2
          ++ constraint_rejections (evaluate_constraints eng.rules p store) := hr
      rw [constraint_reasons_nil, List.append_nil] at hr'
      have hob := foldl_step_reason_types p store
        (obligation_lookup eng.obligations.obligations)
        (eng.mapping.get_obligations_for_slot p.slot_id) ([], [])
        (by intro r hr; cases hr) r hr'
      simp [hob]
  · intro rules₂
    cases hs : eng.template.get_slot p.slot_id with
    | none =>
      have hs₂ : ({ eng with rules := rules₂ } :
          AdjudicationEngine).template.get_slot p.slot_id = none := hs
      rw [adjudicate_eq_missing eng p store adjudication_id hs,
        adjudicate_eq_missing { eng with rules := rules₂ } p store adjudication_id hs₂]
    | some slot =>
      have hs₂ : ({ eng with rules := rules₂ } :
          AdjudicationEngine).template.get_slot p.slot_id = some slot := hs
      rw [adjudicate_eq_found eng p store adjudication_id slot hs,
        adjudicate_eq_found { eng with rules := rules₂ } p store adjudication_id slot hs₂]
      have hloop : obligation_loop { eng with rules := rules₂ } p store =
          obligation_loop eng p store := rfl
      show (if _ then AdjudicationStatus.ACCEPTED else .REJECTED)
        = (if _ then AdjudicationStatus.ACCEPTED else .REJECTED)
      rw [constraint_reasons_nil, constraint_reasons_nil, hloop]

/-! ## C1: transformation rules force rejection -/

/-- C1.  For a proposal whose slot exists, and an obligation mapped to
that slot and resolvable among the compiled obligations: when the
proposal uses a forbidden transformation or escapes a non-empty allowed
list, adjudication is REJECTED and records a `TRANSFORMATIONS` rejection
reason of rule_type `obligation` for that obligation; otherwise the
transformation check passes. -/
theorem adjudicate_transformation_rule
    (eng : AdjudicationEngine) (p : SlotProposal)
    (store : List (String × EvidenceAtom)) (adjudication_id : String)
    (oid : String) (o : Obligation)
    (hslot : eng.template.get_slot p.slot_id ≠ none)
    (hmem : oid ∈ eng.mapping.get_obligations_for_slot p.slot_id)
    (hlook : obligation_lookup eng.obligations.obligations oid = some o) :
    (transformation_violation p o →
      (adjudicate eng p store adjudication_id).status = .REJECTED ∧
      ∃ r ∈ (adjudicate eng p store adjudication_id).rejection_reasons,
        r.rule_id = "TRANSFORMATIONS" ∧ r.rule_type = "obligation" ∧
        r.obligation_id = some oid) ∧
    (¬ transformation_violation p o →
      (check_transformations p o).passed = true) := by
  obtain ⟨slot, hs⟩ := Option.ne_none_iff_exists'.mp hslot
  constructor
  · intro hviol
    have hfail : (check_transformations p o).passed = false :=
      (check_transformations_passed_iff p o).mpr hviol
    have hR : ({ rule_id := "TRANSFORMATIONS", rule_type := "obligation",
                 obligation_id := some oid,
                 message := (check_transformations p o).message } : RejectionReason) ∈
        (obligation_loop eng p store).2 :=
      foldl_step_mem_transform p store
        (obligation_lookup eng.obligations.obligations)
        (eng.mapping.get_obligations_for_slot p.slot_id) oid o hmem hlook hfail ([], [])
    rw [adjudicate_eq_found eng p store adjudication_id slot hs]
    refine ⟨adjudicate_found_rejected_of_reason eng p store adjudication_id _ hR
      (by simp), ?_⟩
    exact ⟨_, List.mem_append_left _ hR, rfl, rfl, rfl⟩
  · intro hnv
    rcases Bool.eq_false_or_eq_true (check_transformations p o).passed with hb | hb
    · exact hb
    · exact absurd ((check_transformations_passed_iff p o).mp hb) hnv


/-- Witness for C1: a proposal using the forbidden INVENT transformation
against `forbidding_obligation`. -/
theorem adjudicate_transformation_rule_witness :
    (transformation_violation invent_proposal forbidding_obligation →
      (adjudicate sample_engine invent_proposal [] "adj-6").status = .REJECTED ∧
      ∃ r ∈ (adjudicate sample_engine invent_proposal [] "adj-6").rejection_reasons,
        r.rule_id = "TRANSFORMATIONS" ∧ r.rule_type = "obligation" ∧
        r.obligation_id = some "ob-1") ∧
    (¬ transformation_violation invent_proposal forbidding_obligation →
      (check_transformations invent_proposal forbidding_obligation).passed = true) :=
  adjudicate_transformation_rule sample_engine invent_proposal [] "adj-6" "ob-1"
    forbidding_obligation (by decide) (by decide) (by decide)

/-! ## C2: evidence completeness forces rejection -/

/-- C2.  For a proposal whose slot exists and a mapped, resolvable
obligation with a non-empty `required_evidence_types`: when some required
type is not covered by the resolving referenced atoms and no absence
statement is allowed, adjudication is REJECTED and records an
`EVIDENCE_TYPES` rejection reason for that obligation whose message lists
the missing types; with an absence statement, or with nothing missing,
the evidence-type check passes. -/
theorem adjudicate_evidence_rule
    (eng : AdjudicationEngine) (p : SlotProposal)
    (store : List (String × EvidenceAtom)) (adjudication_id : String)
    (oid : String) (o : Obligation)
    (hslot : eng.template.get_slot p.slot_id ≠ none)
    (hmem : oid ∈ eng.mapping.get_obligations_for_slot p.slot_id)
    (hlook : obligation_lookup eng.obligations.obligations oid = some o)
    (hreq : o.required_evidence_types ≠ []) :
    (evidence_violation p o store →
      (adjudicate eng p store adjudication_id).status = .REJECTED ∧
      ∃ r ∈ (adjudicate eng p store adjudication_id).rejection_reasons,
        r.rule_id = "EVIDENCE_TYPES" ∧ r.rule_type = "obligation" ∧
        r.obligation_id = some oid ∧
        r.message = "Missing required evidence types: "
          ++ evidence_types_rendered (missing_evidence_types p o store)) ∧
    ((o.allow_absence_statement = true ∨ missing_evidence_types p o store = []) →
      (check_evidence_types p o store).passed = true) := by
  obtain ⟨slot, hs⟩ := Option.ne_none_iff_exists'.mp hslot
  constructor
  · intro hviol
    have hfail : (check_evidence_types p o store).passed = false :=
      (check_evidence_types_passed_iff p o store).mpr ⟨hreq, hviol⟩
    have hR : ({ rule_id := "EVIDENCE_TYPES", rule_type := "obligation",
                 obligation_id := some oid,
                 message := (check_evidence_types p o store).message } :
        RejectionReason) ∈ (obligation_loop eng p store).2 :=
      foldl_step_mem_evidence p store
        (obligation_lookup eng.obligations.obligations)
        (eng.mapping.get_obligations_for_slot p.slot_id) oid o hmem hlook hfail ([], [])
    rw [adjudicate_eq_found eng p store adjudication_id slot hs]
    refine ⟨adjudicate_found_rejected_of_reason eng p store adjudication_id _ hR
      (by simp), ?_⟩
    exact ⟨_, List.mem_append_left _ hR, rfl, rfl, rfl,
      check_evidence_types_failed_message p o store hfail⟩
  · intro hok
    rcases Bool.eq_false_or_eq_true (check_evidence_types p o store).passed with hb | hb
    · exact hb
    · exfalso
      have hviol := ((check_evidence_types_passed_iff p o store).mp hb).2
      rcases hok with habs | hmiss
      · rw [evidence_violation, habs] at hviol
        simp at hviol
      · exact hviol.1 hmiss

/-- Witness for C2: a proposal referencing no atoms against
`requiring_obligation`, which requires sales-volume evidence. -/
theorem adjudicate_evidence_rule_witness :
    (evidence_violation invent_proposal requiring_obligation [] →
      (adjudicate sample_engine invent_proposal [] "adj-7").status = .REJECTED ∧
      ∃ r ∈ (adjudicate sample_engine invent_proposal [] "adj-7").rejection_reasons,
        r.rule_id = "EVIDENCE_TYPES" ∧ r.rule_type = "obligation" ∧
        r.obligation_id = some "ob-2" ∧
        r.message = "Missing required evidence types: "
          ++ evidence_types_rendered
              (missing_evidence_types invent_proposal requiring_obligation [])) ∧
    ((requiring_obligation.allow_absence_statement = true ∨
        missing_evidence_types invent_proposal requiring_obligation [] = []) →
      (check_evidence_types invent_proposal requiring_obligation []).passed = true) :=
  adjudicate_evidence_rule sample_engine invent_proposal [] "adj-7" "ob-2"
    requiring_obligation (by decide) (by decide) (by decide) (by decide)

/-! ## C4: template qualification -/

/-- The mandatory-coverage loop yields no issue iff every mandatory
obligation is mapped. -/
theorem missing_mandatory_issues_eq_nil_iff
    (co : CompiledObligations) (mp : ObligationMapping) :
    missing_mandatory_issues co mp = [] ↔ mandatory_covered co mp := by
  rw [missing_mandatory_issues, List.filterMap_eq_nil_iff, mandatory_covered]
  constructor
  · intro h o ho hm
    have := h o (List.mem_filter.mpr ⟨ho, by simp [hm]⟩)
    by_contra hnot
    rw [if_neg hnot] at this
    cases this
  · intro h o ho
    rw [List.mem_filter] at ho
    rw [if_pos (h o ho.1 (by simpa using ho.2))]

/-- The dangling-slot loop yields no issue iff every mapped slot id
exists. -/
theorem dangling_issues_eq_nil_iff (ts : TemplateSchema) (mp : ObligationMapping) :
    dangling_issues ts mp = [] ↔ no_dangling ts mp := by
  rw [dangling_issues, List.flatMap_eq_nil_iff, no_dangling]
  refine forall_congr' fun sm => forall_congr' fun _hsm => ?_
  rw [List.filterMap_eq_nil_iff]
  refine forall_congr' fun sid => forall_congr' fun _hsid => ?_
  constructor
  · intro h hnone
    rw [if_pos hnone] at h
    cases h
  · intro h
    rw [if_neg h]

/-- The compatibility loop yields no issue iff every constrained mapping
entry targets compatible slots. -/
theorem incompatible_slot_issue_eq_none_iff (ts : TemplateSchema)
    (o : Obligation) (sid : String) :
    incompatible_slot_issue ts o sid = none ↔
      ∀ s, slot_lookup ts.slots sid = some s → has_compatible s o = true := by
  cases hsl : slot_lookup ts.slots sid with
  | none =>
    simp only [incompatible_slot_issue, hsl]
    exact ⟨fun _ s hs => Option.noConfusion hs, fun _ => trivial⟩
  | some s =>
    simp only [incompatible_slot_issue, hsl]
    constructor
    · intro h s' hs'
      cases hs'
      by_contra hnc
      rw [if_neg (by simp [hnc])] at h
      cases h
    · intro h
      rw [if_pos (h s rfl)]

/-- One mapping entry yields no incompatibility issue iff the claim's
condition holds for it. -/
theorem incompatible_entry_eq_nil_iff (co : CompiledObligations)
    (ts : TemplateSchema) (sm : SlotMapping) :
    incompatible_entry co ts sm = [] ↔
      (∀ o, obligation_lookup co.obligations sm.obligation_id = some o →
        o.allowed_output_types ≠ [] →
        ∀ sid ∈ sm.slot_ids, ∀ s, slot_lookup ts.slots sid = some s →
          has_compatible s o = true) := by
  cases hob : obligation_lookup co.obligations sm.obligation_id with
  | none =>
    simp only [incompatible_entry, hob, true_iff]
    intro o ho
    cases ho
  | some o =>
    simp only [incompatible_entry, hob]
    constructor
    · intro h o' ho' hne sid hsid s hsl
      have hoo : o = o' := by injection ho'
      subst hoo
      rw [if_neg hne, List.filterMap_eq_nil_iff] at h
      exact (incompatible_slot_issue_eq_none_iff ts o sid).mp (h sid hsid) s hsl
    · intro h
      by_cases hne : o.allowed_output_types = []
      · rw [if_pos hne]
      · rw [if_neg hne, List.filterMap_eq_nil_iff]
        intro sid hsid
        exact (incompatible_slot_issue_eq_none_iff ts o sid).mpr
          (fun s hsl => h o rfl hne sid hsid s hsl)

/-- The compatibility loop yields no issue iff every constrained mapping
entry targets compatible slots. -/
theorem incompatible_issues_eq_nil_iff (co : CompiledObligations)
    (ts : TemplateSchema) (mp : ObligationMapping) :
    incompatible_issues co ts mp = [] ↔ types_compatible co ts mp := by
  rw [incompatible_issues, List.flatMap_eq_nil_iff, types_compatible]
  exact forall_congr' fun sm => forall_congr' fun _hsm =>
    incompatible_entry_eq_nil_iff co ts sm

/-- Every issue produced by each loop carries that loop's issue type. -/
theorem missing_mandatory_issues_types (co : CompiledObligations)
    (mp : ObligationMapping) :
    ∀ i ∈ missing_mandatory_issues co mp, i.issue_type = "missing_mandatory" := by
  intro i hi
  rw [missing_mandatory_issues, List.mem_filterMap] at hi
  obtain ⟨o, _, ho⟩ := hi
  split at ho
  · cases ho
  · cases ho
    rfl

/-- Every dangling issue carries type `dangling_mapping`. -/
theorem dangling_issues_types (ts : TemplateSchema) (mp : ObligationMapping) :
    ∀ i ∈ dangling_issues ts mp, i.issue_type = "dangling_mapping" := by
  intro i hi
  rw [dangling_issues, List.mem_flatMap] at hi
  obtain ⟨sm, _, hsm⟩ := hi
  rw [List.mem_filterMap] at hsm
  obtain ⟨sid, _, hsid⟩ := hsm
  split at hsid
  · cases hsid
    rfl
  · cases hsid

/-- Every incompatibility issue carries type `incompatible_type`. -/
theorem incompatible_issues_types (co : CompiledObligations)
    (ts : TemplateSchema) (mp : ObligationMapping) :
    ∀ i ∈ incompatible_issues co ts mp, i.issue_type = "incompatible_type" := by
  intro i hi
  rw [incompatible_issues, List.mem_flatMap] at hi
  obtain ⟨sm, _, hsm⟩ := hi
  cases hob : obligation_lookup co.obligations sm.obligation_id with
  | none => simp only [incompatible_entry, hob] at hsm; cases hsm
  | some o =>
    simp only [incompatible_entry, hob] at hsm
    split at hsm
    · cases hsm
    · rw [List.mem_filterMap] at hsm
      obtain ⟨sid, _, hsid⟩ := hsm
      cases hsl : slot_lookup ts.slots sid with
      | none => simp only [incompatible_slot_issue, hsl] at hsid; cases hsid
      | some s =>
        simp only [incompatible_slot_issue, hsl] at hsid
        split at hsid
        · cases hsid
        · cases hsid
          rfl

/-- C4.  `qualify_template` returns PASS iff the issues list is empty;
the issues list is empty iff every mandatory obligation is mapped, every
mapped slot id exists, and every constrained mapping entry targets
type-compatible slots; and each violated condition is recorded as an
issue of its characteristic type (`missing_mandatory`,
`dangling_mapping`, `incompatible_type`), with an empty
allowed-output-type list producing no incompatibility issue. -/
theorem qualify_template_correct (co : CompiledObligations)
    (ts : TemplateSchema) (mp : ObligationMapping) :
    ((qualify_template co ts mp).status = .PASS ↔
      (qualify_template co ts mp).issues = []) ∧
    ((qualify_template co ts mp).issues = [] ↔
      (mandatory_covered co mp ∧ no_dangling ts mp ∧ types_compatible co ts mp)) ∧
    (¬ mandatory_covered co mp ↔
      ∃ i ∈ (qualify_template co ts mp).issues, i.issue_type = "missing_mandatory") ∧
    (¬ no_dangling ts mp ↔
      ∃ i ∈ (qualify_template co ts mp).issues, i.issue_type = "dangling_mapping") ∧
    (¬ types_compatible co ts mp ↔
      ∃ i ∈ (qualify_template co ts mp).issues, i.issue_type = "incompatible_type") := by
  have hiss : (qualify_template co ts mp).issues =
      missing_mandatory_issues co mp ++ dangling_issues ts mp
        ++ incompatible_issues co ts mp := rfl
  have hst : (qualify_template co ts mp).status =
      (if (missing_mandatory_issues co mp ++ dangling_issues ts mp
          ++ incompatible_issues co ts mp) = [] then QualificationStatus.PASS
        else .FAIL) := rfl
  refine ⟨?_, ?_, ?_, ?_, ?_⟩
  · rw [hiss, hst]
    by_cases h : missing_mandatory_issues co mp ++ dangling_issues ts mp
        ++ incompatible_issues co ts mp = []
    · simp [h]
    · simp [h]
  · rw [hiss, List.append_assoc, List.append_eq_nil, List.append_eq_nil,
      missing_mandatory_issues_eq_nil_iff, dangling_issues_eq_nil_iff,
      incompatible_issues_eq_nil_iff]
  · rw [hiss, ← not_iff_not.mpr (missing_mandatory_issues_eq_nil_iff co mp)]
    constructor
    · intro h
      obtain ⟨i, hi⟩ := List.exists_mem_of_ne_nil _ h
      exact ⟨i, List.mem_append_left _ (List.mem_append_left _ hi),
        missing_mandatory_issues_types co mp i hi⟩
    · rintro ⟨i, hi, htype⟩ hm
      rw [List.append_assoc, hm, List.nil_append] at hi
      rcases List.mem_append.mp hi with hd | hinc
      · exact absurd (htype.symm.trans (dangling_issues_types ts mp i hd)) (by decide)
      · exact absurd (htype.symm.trans (incompatible_issues_types co ts mp i hinc))
          (by decide)
  · rw [hiss, ← not_iff_not.mpr (dangling_issues_eq_nil_iff ts mp)]
    constructor
    · intro h
      obtain ⟨i, hi⟩ := List.exists_mem_of_ne_nil _ h
      exact ⟨i, List.mem_append_left _ (List.mem_append_right _ hi),
        dangling_issues_types ts mp i hi⟩
    · rintro ⟨i, hi, htype⟩ hd
      rw [hd, List.append_nil] at hi
      rcases List.mem_append.mp hi with hm | hinc
      · exact absurd (htype.symm.trans (missing_mandatory_issues_types co mp i hm))
          (by decide)
      · exact absurd (htype.symm.trans (incompatible_issues_types co ts mp i hinc))
          (by decide)
  · rw [hiss, ← not_iff_not.mpr (incompatible_issues_eq_nil_iff co ts mp)]
    constructor
    · intro h
      obtain ⟨i, hi⟩ := List.exists_mem_of_ne_nil _ h
      exact ⟨i, List.mem_append_right _ hi, incompatible_issues_types co ts mp i hi⟩
    · rintro ⟨i, hi, htype⟩ hc
      rw [hc, List.append_nil] at hi
      rcases List.mem_append.mp hi with hm | hd
      · exact absurd (htype.symm.trans (missing_mandatory_issues_types co mp i hm))
          (by decide)
      · exact absurd (htype.symm.trans (dangling_issues_types ts mp i hd)) (by decide)

/-! ## C5: period contiguity -/

/-- `overlaps` is symmetric. -/
theorem overlaps_symm (a b : PSURPeriod) : a.overlaps b = b.overlaps a := by
  rw [PSURPeriod.overlaps, PSURPeriod.overlaps, decide_eq_decide]
  exact and_comm

/-- The index-pair formulation of "no two distinct entries overlap"
coincides with `Pairwise`. -/
theorem pairwise_no_overlap_iff (l : List PSURPeriod) :
    pairwise_no_overlap l ↔ l.Pairwise (fun a b => a.overlaps b = false) := by
  rw [List.pairwise_iff_getElem, pairwise_no_overlap]
  constructor
  · intro h i j hi hj hij
    exact h i j hi hj (Nat.ne_of_lt hij)
  · intro h i j hi hj hij
    rcases Nat.lt_or_ge i j with hlt | hge
    · exact h i j hi hj hlt
    · have hlt : j < i := Nat.lt_of_le_of_ne hge (Ne.symm hij)
      rw [overlaps_symm]
      exact h j i hj hi hlt

/-- The doubly nested overlap loop reports nothing iff no two distinct
entries overlap. -/
theorem overlap_issues_eq_nil_iff (l : List PSURPeriod) :
    overlap_issues l = [] ↔ pairwise_no_overlap l := by
  rw [overlap_issues, List.flatMap_eq_nil_iff]
  constructor
  · intro h i j hi hj hij
    have hmem_i : (i, l.get ⟨i, hi⟩) ∈ l.enum := by
      rw [List.mem_enum_iff_getElem?]
      exact List.getElem?_eq_getElem hi
    have hmem_j : (j, l.get ⟨j, hj⟩) ∈ l.enum := by
      rw [List.mem_enum_iff_getElem?]
      exact List.getElem?_eq_getElem hj
    have h2 := h _ hmem_i
    rw [List.filterMap_eq_nil_iff] at h2
    have h3 := h2 _ hmem_j
    by_contra hov
    rw [Bool.not_eq_false] at hov
    rw [if_pos ⟨hij, hov⟩] at h3
    cases h3
  · intro h ip hip
    rw [List.filterMap_eq_nil_iff]
    intro jq hjq
    obtain ⟨i, p⟩ := ip
    obtain ⟨j, q⟩ := jq
    rw [List.mem_enum_iff_getElem?, List.getElem?_eq_some] at hip hjq
    obtain ⟨hi, hpi⟩ := hip
    obtain ⟨hj, hqj⟩ := hjq
    dsimp only at hi hpi hj hqj
    by_cases hij : i = j
    · rw [if_neg]
      rintro ⟨hne, _⟩
      exact hne hij
    · have hno : l[i].overlaps l[j] = false := h i j hi hj hij
      rw [if_neg]
      rintro ⟨_, hov⟩
      dsimp only at hov
      rw [← hpi, ← hqj] at hov
      rw [hno] at hov
      cases hov

/-- The adjacent-pair gap loop reports nothing iff no adjacent sorted
pair has a gap. -/
theorem gap_issues_eq_nil_iff (l : List PSURPeriod) :
    gap_issues l = [] ↔
      List.Chain' (fun prev cur => cur.has_gap prev = false) l := by
  induction l with
  | nil => simp [gap_issues]
  | cons a t ih =>
    cases t with
    | nil => simp [gap_issues]
    | cons b rest =>
      rw [List.chain'_cons, ← ih]
      rw [show gap_issues (a :: b :: rest) =
        (if b.has_gap a then
          ["Gap between " ++ a.period_id ++ " and " ++ b.period_id]
         else []) ++ gap_issues (b :: rest) from rfl]
      cases hb : b.has_gap a <;> simp [hb]

/-- C5.  `validate_period_contiguity` passes iff no two distinct periods
overlap and no adjacent pair in start-date-sorted order has a gap; the
empty list and every singleton list return `(true, [])`. -/
theorem validate_period_contiguity_correct (P : List PSURPeriod) :
    ((validate_period_contiguity P).1 = true ↔
      (pairwise_no_overlap P ∧
        List.Chain' (fun prev cur => cur.has_gap prev = false) (sort_periods P))) ∧
    validate_period_contiguity [] = (true, []) ∧
    (∀ p : PSURPeriod, validate_period_contiguity [p] = (true, [])) := by
  refine ⟨?_, rfl, ?_⟩
  · by_cases hP : P = []
    · subst hP
      rw [validate_period_contiguity]
      simp only [if_pos rfl]
      constructor
      · intro _
        refine ⟨?_, ?_⟩
        · intro i j hi hj hij
          exact absurd hi (Nat.not_lt_zero i)
        · rw [sort_periods, List.mergeSort_nil]
          exact List.chain'_nil
      · intro _
        rfl
    · rw [validate_period_contiguity, if_neg hP]
      have hperm : List.Perm (sort_periods P) P := List.mergeSort_perm P _
      have hsymm : ∀ {x y : PSURPeriod},
          x.overlaps y = false → y.overlaps x = false := by
        intro x y hxy
        rw [overlaps_symm]
        exact hxy
      have hpw : pairwise_no_overlap (sort_periods P) ↔ pairwise_no_overlap P := by
        rw [pairwise_no_overlap_iff, pairwise_no_overlap_iff]
        exact List.Perm.pairwise_iff hsymm hperm
      have hlen : ((overlap_issues (sort_periods P)
            ++ gap_issues (sort_periods P)).length = 0) ↔
          (overlap_issues (sort_periods P) = [] ∧
            gap_issues (sort_periods P) = []) := by
        rw [List.length_eq_zero, List.append_eq_nil]
      rw [decide_eq_true_iff, hlen, overlap_issues_eq_nil_iff,
        gap_issues_eq_nil_iff, hpw]
  · intro p
    rw [validate_period_contiguity, if_neg (by simp)]
    rw [show sort_periods [p] = [p] from List.mergeSort_singleton p]
    rfl
